import Mathlib

/-!
Verification of the SnapComposer upload/assembly/publish pipeline
(src/components/homepage/SnapComposer.tsx) against its specification.

The composer's pure logic is shallowly embedded below; external
collaborators (the browser URL parser, JSON.parse, the network, the Hive
signing client) enter as explicit parameters holding their observed
outcomes, exactly where the source consults them.
-/

namespace Snaps

/-! ## Hashtag extraction (extractHashtags, SnapComposer.tsx lines 44-48) -/

/-- Word characters of the JS regex class backslash-w: ASCII letters,
digits and underscore. -/
def isWordChar (c : Char) : Bool :=
  c.isAlpha || c.isDigit || c = '_'

/-- Core of the global regex scan for hash-number-sign followed by
one-or-more word characters.  A global scan of that pattern returns, in
left-to-right order, every maximal run of word characters whose
immediately preceding character is the hash sign (the hash sign is not a
word character, so runs never overlap matches and every hash sign is
inspected).  Returns (matches of l, maximal word-character run at the
head of l). -/
def scanAux : List Char → List String × List Char
  | [] => ([], [])
  | c :: rest =>
    let p := scanAux rest
    if isWordChar c then (p.1, c :: p.2)
    else if c = '#' && !p.2.isEmpty then (String.mk p.2 :: p.1, [])
    else (p.1, [])

/-- All regex matches of the hashtag pattern, capture group only (the
leading hash sign stripped, as in matches.map slice 1). -/
def extractHashtags (text : String) : List String :=
  (scanAux text.data).1

/-! ## Tag-set construction (handleComment, lines 360-370) -/

/-- One step of JS Set insertion: keep insertion order, drop an element
already present. -/
def insertUniq (acc : List String) (x : String) : List String :=
  if x ∈ acc then acc else acc ++ [x]

/-- Spreading a JS Set built from a list: deduplication preserving
first-occurrence order. -/
def setDedup (l : List String) : List String :=
  l.foldl insertUniq []

/-- Tag assembly of handleComment: when the parent permlink is the
reserved container tag "snaps", seed with the configured community tag
(empty string when the environment variable is unset, the JS
or-empty-string default) and the reserved tag, then merge in the
hashtags extracted from the body, deduplicated via the Set spread. -/
def buildTags (pp : String) (communityTag : Option String) (body : String) : List String :=
  let seed := if pp = "snaps" then [communityTag.getD "", "snaps"] else []
  setDedup (seed ++ extractHashtags body)

theorem mem_insertUniq (acc : List String) (y x : String) :
    x ∈ insertUniq acc y ↔ x ∈ acc ∨ x = y := by
  unfold insertUniq
  split
  · rename_i hy
    constructor
    · exact Or.inl
    · rintro (h | rfl)
      · exact h
      · exact hy
  · simp

theorem mem_foldl_insertUniq (l : List String) :
    ∀ acc x, x ∈ l.foldl insertUniq acc ↔ x ∈ acc ∨ x ∈ l := by
  induction l with
  | nil => simp
  | cons y l ih =>
    intro acc x
    simp only [List.foldl_cons, ih, mem_insertUniq, List.mem_cons]
    tauto

theorem nodup_foldl_insertUniq (l : List String) :
    ∀ acc : List String, acc.Nodup → (l.foldl insertUniq acc).Nodup := by
  induction l with
  | nil => simp
  | cons y l ih =>
    intro acc hacc
    simp only [List.foldl_cons]
    apply ih
    unfold insertUniq
    split
    · exact hacc
    · rename_i hy
      simp [List.nodup_append, hacc, hy]

theorem foldl_insertUniq_extends (l : List String) :
    ∀ acc : List String, ∃ t, l.foldl insertUniq acc = acc ++ t ∧ t.Sublist l := by
  induction l with
  | nil => exact fun acc => ⟨[], by simp⟩
  | cons y l ih =>
    intro acc
    simp only [List.foldl_cons]
    unfold insertUniq
    split
    · obtain ⟨t, ht, hs⟩ := ih acc
      exact ⟨t, ht, hs.cons y⟩
    · obtain ⟨t, ht, hs⟩ := ih (acc ++ [y])
      exact ⟨y :: t, by simpa using ht, hs.cons₂ y⟩

/-- Claim C6: hashtag extraction and tag-set construction are a pure
function of the text: the candidates are the tokens of a hash sign
followed by one-or-more word characters with the hash sign stripped;
matching is case-sensitive (on "hello #world #World #snap" the tags
world and World are distinct, each once); deduplication keeps
first-occurrence order (membership preserved, no duplicates, relative
order a sublist of the input); and under the community-context rule
(parent permlink equals the reserved tag "snaps") the seed tags come
first, before the extracted hashtags, with duplicates removed. -/
theorem hashtag_extraction_tags :
    extractHashtags "hello #world #World #snap" = ["world", "World", "snap"]
    ∧ (∀ (l : List String) (x : String), x ∈ setDedup l ↔ x ∈ l)
    ∧ (∀ l : List String, (setDedup l).Nodup)
    ∧ (∀ l : List String, (setDedup l).Sublist l)
    ∧ (∀ seed rest : List String, ∃ t, setDedup (seed ++ rest) = setDedup seed ++ t)
    ∧ (∀ (communityTag : Option String) (body : String),
        buildTags "snaps" communityTag body =
          setDedup ([communityTag.getD "", "snaps"] ++ extractHashtags body)) := by
  refine ⟨by decide, ?_, ?_, ?_, ?_, ?_⟩
  · intro l x
    simpa using mem_foldl_insertUniq l [] x
  · intro l
    exact nodup_foldl_insertUniq l [] List.nodup_nil
  · intro l
    obtain ⟨t, ht, hs⟩ := foldl_insertUniq_extends l []
    simpa [setDedup, ht] using hs
  · intro seed rest
    obtain ⟨t, ht, hs⟩ := foldl_insertUniq_extends rest (setDedup seed)
    exact ⟨t, by simpa [setDedup, List.foldl_append] using ht⟩
  · intro communityTag body
    rfl

/-! ## Permlink generation (handleComment, lines 323-326)

The source computes the ISO rendering of the submit-time Date, removes
every character outside a-z, A-Z, 0-9 and lower-cases the result.  The
Date API is an external collaborator; its toISOString output is the
fixed-width rendering year-month-dayThour:minute:second.millisZ with
zero-padded decimal fields and millisecond resolution, modelled below
on a broken-down timestamp record. -/

structure JSDate where
  year : Nat
  month : Nat
  day : Nat
  hour : Nat
  minute : Nat
  second : Nat
  millis : Nat
deriving DecidableEq

/-- The decimal digit character for d (meaningful for d below 10). -/
def digitChar (d : Nat) : Char := Char.ofNat (48 + d)

/-- Two-digit zero-padded decimal field of the ISO rendering. -/
def pad2 (n : Nat) : String :=
  String.mk [digitChar (n / 10 % 10), digitChar (n % 10)]

/-- Three-digit zero-padded decimal field of the ISO rendering. -/
def pad3 (n : Nat) : String :=
  String.mk [digitChar (n / 100 % 10), digitChar (n / 10 % 10), digitChar (n % 10)]

/-- Four-digit zero-padded decimal field of the ISO rendering. -/
def pad4 (n : Nat) : String :=
  String.mk [digitChar (n / 1000 % 10), digitChar (n / 100 % 10),
    digitChar (n / 10 % 10), digitChar (n % 10)]

/-- The platform Date toISOString rendering (external collaborator),
millisecond resolution. -/
def toISOString (d : JSDate) : String :=
  pad4 d.year ++ "-" ++ pad2 d.month ++ "-" ++ pad2 d.day ++ "T" ++
    pad2 d.hour ++ ":" ++ pad2 d.minute ++ ":" ++ pad2 d.second ++ "." ++
    pad3 d.millis ++ "Z"

/-- The character class kept by the replace call: ASCII letters and digits. -/
def isAlnumChar (c : Char) : Bool := c.isAlpha || c.isDigit

/-- The replace-then-toLowerCase pipeline at the character level. -/
def sanitizeChars (l : List Char) : List Char :=
  (l.filter isAlnumChar).map Char.toLower

/-- Permlink generation of handleComment: the sanitized, lower-cased ISO
rendering of the submit-time timestamp. -/
def generatePermlink (d : JSDate) : String :=
  String.mk (sanitizeChars (toISOString d).data)

theorem sanitizeChars_append (a b : List Char) :
    sanitizeChars (a ++ b) = sanitizeChars a ++ sanitizeChars b := by
  simp [sanitizeChars]

theorem digitChar_filter (k : Nat) (hk : k < 10) :
    isAlnumChar (digitChar k) = true := by
  interval_cases k <;> decide

theorem digitChar_lower (k : Nat) (hk : k < 10) :
    (digitChar k).toLower = digitChar k := by
  interval_cases k <;> decide

theorem digitChar_inj (a b : Nat) (ha : a < 10) (hb : b < 10)
    (h : digitChar a = digitChar b) : a = b := by
  interval_cases a <;> interval_cases b <;> first | rfl | exact absurd h (by decide)

theorem sanitize_pad3 (ms : Nat) :
    sanitizeChars (pad3 ms).data = (pad3 ms).data := by
  have h1 : ms / 100 % 10 < 10 := Nat.mod_lt _ (by omega)
  have h2 : ms / 10 % 10 < 10 := Nat.mod_lt _ (by omega)
  have h3 : ms % 10 < 10 := Nat.mod_lt _ (by omega)
  simp [pad3, sanitizeChars, digitChar_filter _ h1, digitChar_filter _ h2,
    digitChar_filter _ h3, digitChar_lower _ h1, digitChar_lower _ h2,
    digitChar_lower _ h3]

theorem pad3_inj (a b : Nat) (ha : a < 1000) (hb : b < 1000)
    (h : pad3 a = pad3 b) : a = b := by
  have h1 : a / 100 % 10 < 10 := Nat.mod_lt _ (by omega)
  have h2 : a / 10 % 10 < 10 := Nat.mod_lt _ (by omega)
  have h3 : a % 10 < 10 := Nat.mod_lt _ (by omega)
  have h4 : b / 100 % 10 < 10 := Nat.mod_lt _ (by omega)
  have h5 : b / 10 % 10 < 10 := Nat.mod_lt _ (by omega)
  have h6 : b % 10 < 10 := Nat.mod_lt _ (by omega)
  have hd : [digitChar (a / 100 % 10), digitChar (a / 10 % 10), digitChar (a % 10)] =
      [digitChar (b / 100 % 10), digitChar (b / 10 % 10), digitChar (b % 10)] :=
    congrArg String.data h
  simp only [List.cons.injEq, and_true] at hd
  obtain ⟨e1, e2, e3⟩ := hd
  have g1 := digitChar_inj _ _ h1 h4 e1
  have g2 := digitChar_inj _ _ h2 h5 e2
  have g3 := digitChar_inj _ _ h3 h6 e3
  omega

theorem generatePermlink_data (d : JSDate) :
    (generatePermlink d).data =
      sanitizeChars (pad4 d.year ++ "-" ++ pad2 d.month ++ "-" ++ pad2 d.day ++ "T" ++
          pad2 d.hour ++ ":" ++ pad2 d.minute ++ ":" ++ pad2 d.second ++ ".").data
        ++ ((pad3 d.millis).data ++ ['z']) := by
  have hz : sanitizeChars "Z".data = ['z'] := by decide
  simp only [generatePermlink, toISOString, String.data_append, sanitizeChars_append,
    sanitize_pad3, hz, List.append_assoc]

/-- Claim C2 counterexample: two submissions within the same second (the
broken-down fields agree through the seconds field) but in different
milliseconds produce different permlinks, because the ISO rendering the
permlink is derived from carries millisecond resolution. -/
theorem permlink_same_second_counterexample :
    generatePermlink ⟨2025, 3, 14, 9, 26, 53, 589⟩ ≠
      generatePermlink ⟨2025, 3, 14, 9, 26, 53, 590⟩ := by
  decide

/-- Claim C2 (amended): the permlink equals the submit-time timestamp
rendered to its ISO string form with every non-alphanumeric character
removed and the result lower-cased; because that rendering carries
millisecond resolution, two submissions within the same second collide
exactly when they fall in the same millisecond: one millisecond apart
gives different permlinks, the same millisecond gives identical ones. -/
theorem permlink_millisecond_boundary (y mon da hr mi se ms1 ms2 : Nat)
    (h1 : ms1 < 1000) (h2 : ms2 < 1000) :
    (∀ d : JSDate, generatePermlink d = String.mk (sanitizeChars (toISOString d).data))
    ∧ (generatePermlink ⟨y, mon, da, hr, mi, se, ms1⟩ =
        generatePermlink ⟨y, mon, da, hr, mi, se, ms2⟩ ↔ ms1 = ms2) := by
  refine ⟨fun d => rfl, ?_, ?_⟩
  · intro h
    apply pad3_inj ms1 ms2 h1 h2
    have hd := congrArg String.data h
    rw [generatePermlink_data, generatePermlink_data] at hd
    have hp : (pad3 ms1).data ++ ['z'] = (pad3 ms2).data ++ ['z'] :=
      List.append_cancel_left hd
    exact String.ext (List.append_cancel_right hp)
  · rintro rfl
    rfl

theorem permlink_millisecond_boundary_witness :
    ((∀ d : JSDate, generatePermlink d = String.mk (sanitizeChars (toISOString d).data))
      ∧ (generatePermlink ⟨2026, 10, 11, 7, 30, 15, 250⟩ =
          generatePermlink ⟨2026, 10, 11, 7, 30, 15, 251⟩ ↔ (250 : Nat) = 251)) :=
  permlink_millisecond_boundary 2026 10 11 7 30 15 250 251 (by decide) (by decide)

/-! ## Ledger write shape (handleComment, lines 372-418)

With a video embed reference present, handleComment broadcasts a
two-operation transaction (comment plus comment_options with the
beneficiary extension); otherwise it calls the aioha comment helper,
which issues a single content-creation operation (external collaborator,
spec section 6 ledger write). -/

structure JsonMetadata where
  app : String
  tags : List String
  images : List String
deriving DecidableEq

structure Beneficiary where
  account : String
  weight : Nat
deriving DecidableEq

structure CommentOpData where
  parent_author : String
  parent_permlink : String
  author : String
  permlink : String
  title : String
  body : String
  json_metadata : JsonMetadata
deriving DecidableEq

structure CommentOptionsData where
  author : String
  permlink : String
  max_accepted_payout : String
  percent_hbd : Nat
  allow_votes : Bool
  allow_curation_rewards : Bool
  extensions : List (Nat × List Beneficiary)
deriving DecidableEq

inductive LedgerOp where
  | comment (d : CommentOpData)
  | comment_options (d : CommentOptionsData)
deriving DecidableEq

/-- The operations handleComment submits to the ledger, keyed on whether
a video embed reference is present. -/
def buildLedgerOps (pa pp user permlink body : String) (meta : JsonMetadata)
    (videoEmbedUrl : Option String) : List LedgerOp :=
  match videoEmbedUrl with
  | some _ =>
    [LedgerOp.comment
      { parent_author := pa, parent_permlink := pp, author := user,
        permlink := permlink, title := "", body := body, json_metadata := meta },
     LedgerOp.comment_options
      { author := user, permlink := permlink,
        max_accepted_payout := "1000000.000 HBD", percent_hbd := 10000,
        allow_votes := true, allow_curation_rewards := true,
        extensions := [(0, [{ account := "snapie", weight := 1000 }])] }]
  | none =>
    [LedgerOp.comment
      { parent_author := pa, parent_permlink := pp, author := user,
        permlink := permlink, title := "", body := body, json_metadata := meta }]

/-- Claim C1: with a video embed reference the submission is exactly two
operations, a comment and a comment_options whose beneficiary extension
lists exactly one beneficiary, account snapie with weight 1000 parts per
10000, with the maximum accepted payout capped at the fixed amount,
percent_hbd 10000 and votes and curation rewards allowed; without a
video it is exactly one content-creation operation and no options
operation carrying a beneficiary extension. -/
theorem publish_operation_shape (pa pp user permlink body : String) (meta : JsonMetadata) :
    (∀ u : String, ∃ c o,
        buildLedgerOps pa pp user permlink body meta (some u) =
          [LedgerOp.comment c, LedgerOp.comment_options o]
        ∧ o.extensions = [(0, [{ account := "snapie", weight := 1000 }])]
        ∧ o.max_accepted_payout = "1000000.000 HBD"
        ∧ o.percent_hbd = 10000
        ∧ o.allow_votes = true
        ∧ o.allow_curation_rewards = true
        ∧ o.author = user ∧ o.permlink = permlink)
    ∧ (∃ c, buildLedgerOps pa pp user permlink body meta none = [LedgerOp.comment c]) := by
  exact ⟨fun u => ⟨_, _, rfl, rfl, rfl, rfl, rfl, rfl, rfl, rfl⟩, ⟨_, rfl⟩⟩

/-! ## Post body assembly (handleComment, lines 329-357) -/

/-- The Markdown image reference appended per uploaded image URL. -/
def markdownImage (url : String) : String := "![image](" ++ url ++ ")"

/-- The per-image upload fan-out of handleComment: every image yields
some url, or none when its upload threw (the per-item catch returns
null); the nulls are filtered out afterwards. -/
def collectValidUrls (results : List (Option String)) : List String :=
  results.filterMap id

/-- Body composition of handleComment, in source order: draft text, then
the raw video embed reference as its own paragraph when present, then
the Markdown image lines joined by newlines when any image uploaded,
then the GIF Markdown line when a GIF is selected, each appended after a
blank-line separator. -/
def composeBody (text : String) (videoEmbedUrl : Option String)
    (validUrls : List String) (gifUrl : Option String) : String :=
  let b1 := match videoEmbedUrl with
    | some u => text ++ "\n\n" ++ u
    | none => text
  let b2 := if validUrls.isEmpty then b1
    else b1 ++ "\n\n" ++ String.intercalate "\n" (validUrls.map markdownImage)
  match gifUrl with
  | some g => b2 ++ "\n\n" ++ ("![gif](" ++ g ++ ")")
  | none => b2

/-- Claim C4: the body is built in the fixed order draft text, video
embed paragraph, Markdown image lines in submission order, GIF line,
each section preceded by a blank-line separator; a non-empty list of N
successfully uploaded images contributes exactly N Markdown image lines
in submission order, and a failed individual upload is dropped from the
URL list without disturbing the other uploads. -/
theorem body_assembly :
    (∀ (text u gif : String) (urls : List String), urls ≠ [] →
        composeBody text (some u) urls (some gif) =
          text ++ "\n\n" ++ u ++ "\n\n" ++
            String.intercalate "\n" (urls.map markdownImage) ++ "\n\n" ++
            ("![gif](" ++ gif ++ ")"))
    ∧ (∀ urls : List String, (urls.map markdownImage).length = urls.length)
    ∧ (∀ urls : List String, collectValidUrls (urls.map some) = urls)
    ∧ (∀ pre post : List (Option String),
        collectValidUrls (pre ++ none :: post) =
          collectValidUrls pre ++ collectValidUrls post) := by
  refine ⟨?_, ?_, ?_, ?_⟩
  · intro text u gif urls hurls
    have h : urls.isEmpty = false := by
      cases urls with
      | nil => exact absurd rfl hurls
      | cons a l => rfl
    simp only [composeBody, h, Bool.false_eq_true, if_false]
  · intro urls
    simp [collectValidUrls]
  · intro urls
    simp [collectValidUrls, List.filterMap_map]
  · intro pre post
    simp [collectValidUrls]

theorem body_assembly_witness :
    composeBody "hi" (some "V") ["u1", "u2"] (some "G") =
      "hi" ++ "\n\n" ++ "V" ++ "\n\n" ++
        String.intercalate "\n" (["u1", "u2"].map markdownImage) ++ "\n\n" ++
        ("![gif](" ++ "G" ++ ")") :=
  body_assembly.1 "hi" "V" "G" ["u1", "u2"] (by decide)

/-! ## Video orchestration (handleVideoSelection, lines 252-305, and
extractVideoId, lines 161-174) -/

/-- JS String.split on a single separator character. -/
def splitChar (sep : Char) : List Char → List (List Char)
  | [] => [[]]
  | c :: rest =>
    let r := splitChar sep rest
    if c = sep then [] :: r
    else match r with
      | [] => [[c]]
      | w :: ws => (c :: w) :: ws

/-- extractVideoId: the browser URL parser is an external collaborator,
so the function is modelled on the value it returns for the v search
parameter (none when the parameter is absent or the URL failed to
parse, in which case the source returns null).  When present, the
parameter of the form owner slash id is split on the slash and the
element at index 1 is returned (none models the undefined of a missing
index). -/
def extractVideoId (vParam : Option String) : Option String :=
  match vParam with
  | some videoParam => (((splitChar '/' videoParam.data).map String.mk).get? 1)
  | none => none

/-- One settled outcome of Promise.allSettled. -/
inductive Settled (α : Type) where
  | fulfilled (value : α)
  | rejected (reason : String)
deriving DecidableEq

/-- Observable outcome of handleVideoSelection after the join. -/
structure VideoSelectionOutcome where
  attachmentFailed : Bool
  videoEmbedUrl : Option String
  assocCall : Option (String × String)
deriving DecidableEq

/-- The reconciliation of handleVideoSelection: both settled outcomes of
the Promise.allSettled join are inputs (neither operation cancels the
other; both are observed before any decision).  parseV is the external
URL parser giving the v search parameter of an embed URL; assocFails
says whether the external thumbnail-assignment call fails, a failure the
inner try/catch swallows.  A rejected video upload is a single fatal
failure for the whole attachment (the thumbnail outcome is discarded); a
rejected thumbnail leaves the attachment successful with no association
call; with both fulfilled, the short identifier is the id segment of the
v parameter and the association call is issued whenever that segment is
present and non-empty (the JS truthiness test on videoId). -/
def reconcileVideoSelection (videoResult thumbResult : Settled String)
    (parseV : String → Option String) (_assocFails : Bool) : VideoSelectionOutcome :=
  match videoResult with
  | .rejected _ =>
    { attachmentFailed := true, videoEmbedUrl := none, assocCall := none }
  | .fulfilled embedUrl =>
    match thumbResult with
    | .rejected _ =>
      { attachmentFailed := false, videoEmbedUrl := some embedUrl, assocCall := none }
    | .fulfilled thumbUrl =>
      match extractVideoId (parseV embedUrl) with
      | some vid =>
        if vid = "" then
          { attachmentFailed := false, videoEmbedUrl := some embedUrl, assocCall := none }
        else
          { attachmentFailed := false, videoEmbedUrl := some embedUrl,
            assocCall := some (vid, thumbUrl) }
      | none =>
        { attachmentFailed := false, videoEmbedUrl := some embedUrl, assocCall := none }

/-- Claim C3: both pipelines are joined with settle-all discipline and
the reconciliation is a total function of the two settled outcomes; a
failed video upload is a single fatal failure whatever the thumbnail
outcome; a failed thumbnail leaves the attachment successful with no
thumbnail association; with both fulfilled, the short identifier is the
id segment of the v query parameter (of the form owner slash id) and the
association call carries it, while a failure of that call never alters
any observable outcome. -/
theorem video_orchestration :
    (∀ (r : String) (t : Settled String) (p : String → Option String) (a : Bool),
        reconcileVideoSelection (.rejected r) t p a =
          { attachmentFailed := true, videoEmbedUrl := none, assocCall := none })
    ∧ (∀ (e r : String) (p : String → Option String) (a : Bool),
        reconcileVideoSelection (.fulfilled e) (.rejected r) p a =
          { attachmentFailed := false, videoEmbedUrl := some e, assocCall := none })
    ∧ (∀ (e tu : String) (p : String → Option String) (vid : String),
        extractVideoId (p e) = some vid → vid ≠ "" → ∀ a : Bool,
          reconcileVideoSelection (.fulfilled e) (.fulfilled tu) p a =
            { attachmentFailed := false, videoEmbedUrl := some e,
              assocCall := some (vid, tu) })
    ∧ (∀ (v t : Settled String) (p : String → Option String),
        reconcileVideoSelection v t p true = reconcileVideoSelection v t p false)
    ∧ extractVideoId (some "meno/i2znmy5h") = some "i2znmy5h" := by
  refine ⟨fun r t p a => rfl, fun e r p a => rfl, ?_, ?_, by decide⟩
  · intro e tu p vid hvid hne a
    simp [reconcileVideoSelection, hvid, hne]
  · intro v t p
    cases v with
    | rejected r => rfl
    | fulfilled e =>
      cases t with
      | rejected r => rfl
      | fulfilled tu => rfl

theorem video_orchestration_witness :
    reconcileVideoSelection (.fulfilled "E") (.fulfilled "T")
        (fun _ => some "meno/i2znmy5h") false =
      { attachmentFailed := false, videoEmbedUrl := some "E",
        assocCall := some ("i2znmy5h", "T") } :=
  video_orchestration.2.2.1 "E" "T" (fun _ => some "meno/i2znmy5h") "i2znmy5h"
    (by decide) (by decide) false

/-! ## Thumbnail publishing fallback (uploadThumbnailToIPFS, lines
103-127, and extractAndUploadThumbnail, lines 130-158) -/

/-- One parsed line of the newline-delimited JSON body returned by the
content-addressed store (JSON.parse of a line is the platform's; the
trim-then-split-on-newline of the source selects these lines in order,
so the last element below is exactly the last response line). -/
structure IPFSAddLine where
  Hash : String
deriving DecidableEq

/-- The fallback-store HTTP response as the source observes it. -/
structure IPFSResponse where
  ok : Bool
  status : Nat
  statusText : String
  ndjsonLines : List IPFSAddLine
deriving DecidableEq

/-- uploadThumbnailToIPFS: a non-2xx response throws; otherwise the
result URL is built from the Hash field of the last NDJSON line. -/
def uploadThumbnailToIPFS (resp : IPFSResponse) : Except String String :=
  if resp.ok then
    match resp.ndjsonLines.getLast? with
    | some line => .ok ("https://ipfs.3speak.tv/ipfs/" ++ line.Hash)
    | none => .error "IPFS response had no lines"
  else
    .error ("IPFS upload failed: " ++ toString resp.status ++ " - " ++ resp.statusText)

/-- The tier logic of extractAndUploadThumbnail once a thumbnail blob
exists: the primary signed image-host upload (getFileSignature plus
uploadImage, external collaborators whose joint outcome is the first
argument) is attempted first; on any failure of that attempt the
content-addressed fallback is attempted exactly once, and its failure is
terminal.  The Bool records whether the fallback tier was attempted. -/
def publishThumbnailBlob (primary : Except String String)
    (fallbackResp : IPFSResponse) : Except String String × Bool :=
  match primary with
  | .ok url => (.ok url, false)
  | .error _ => (uploadThumbnailToIPFS fallbackResp, true)

/-- Claim C5: a successful primary upload is returned as-is with the
fallback never attempted; on any primary failure the fallback is
attempted exactly once, its successful response yields the URL built
from the Hash field of the last NDJSON line, a non-2xx fallback response
is a terminal failure of the whole publish, and each tier is attempted
at most once (the fallback flag is true exactly when the primary
failed). -/
theorem thumbnail_publish_fallback :
    (∀ (url : String) (resp : IPFSResponse),
        publishThumbnailBlob (.ok url) resp = (.ok url, false))
    ∧ (∀ (e : String) (resp : IPFSResponse),
        publishThumbnailBlob (.error e) resp = (uploadThumbnailToIPFS resp, true))
    ∧ (∀ (st : Nat) (stx : String) (ls : List IPFSAddLine) (l : IPFSAddLine),
        uploadThumbnailToIPFS
          { ok := true, status := st, statusText := stx,
            ndjsonLines := ls ++ [l] } =
          .ok ("https://ipfs.3speak.tv/ipfs/" ++ l.Hash))
    ∧ (∀ (e : String) (st : Nat) (stx : String) (ls : List IPFSAddLine),
        publishThumbnailBlob (.error e)
            { ok := false, status := st, statusText := stx, ndjsonLines := ls } =
          (.error ("IPFS upload failed: " ++ toString st ++ " - " ++ stx), true)) := by
  refine ⟨fun url resp => rfl, fun e resp => rfl, ?_, fun e st stx ls => rfl⟩
  intro st stx ls l
  simp [uploadThumbnailToIPFS, List.getLast?_concat]

/-! ## Broadcast outcome handling (handleComment, lines 420-445) -/

/-- The composer's draft and upload state touched by handleComment. -/
structure ComposerState where
  text : String
  images : List String
  selectedGif : Option String
  selectedVideo : Option String
  videoEmbedUrl : Option String
  videoUploadProgress : Nat
  thumbnailProcessing : Bool
  isLoading : Bool
  uploadProgress : List Nat
deriving DecidableEq

/-- The minimal record handed to the onNewComment callback. -/
structure NewCommentRecord where
  author : String
  permlink : String
  body : String
deriving DecidableEq

/-- The handling of the broadcast response in handleComment: on success
every draft and upload field is cleared and the caller is notified with
the minimal author-permlink-body record; on failure an alert is shown;
the finally block resets the loading flag and the image upload-progress
list in both cases.  Result: (new state, notification, alert text). -/
def afterBroadcast (s : ComposerState) (user permlink body : String)
    (success : Bool) : ComposerState × Option NewCommentRecord × Option String :=
  if success then
    ({ text := "", images := [], selectedGif := none, selectedVideo := none,
       videoEmbedUrl := none, videoUploadProgress := 0, thumbnailProcessing := false,
       isLoading := false, uploadProgress := [] },
     some { author := user, permlink := permlink, body := body }, none)
  else
    ({ s with isLoading := false, uploadProgress := [] }, none,
     some "Failed to post. Please try again.")

/-- Claim C7 counterexample: on a rejected broadcast the upload state is
not left unchanged: the image upload-progress list, part of the upload
state the claim itself enumerates, is reset to empty by the finally
block.  Concrete state: one image whose upload progress reached 100. -/
theorem failure_state_counterexample :
    (afterBroadcast
        { text := "hello", images := ["cat.png"], selectedGif := none,
          selectedVideo := none, videoEmbedUrl := none, videoUploadProgress := 0,
          thumbnailProcessing := false, isLoading := true, uploadProgress := [100] }
        "alice" "pl" "hello" false).1.uploadProgress ≠ [100] := by
  decide

/-- Claim C7 (amended): on an accepted submission every draft and upload
field (text, images, GIF, video attachment, embed reference, video
progress, thumbnail flag, loading flag, image upload progress) is
cleared and the caller is notified with exactly the minimal
author-permlink-body record; on a rejected submission the draft and
attachment fields (text, images, GIF, video, embed reference, video
progress, thumbnail flag) are left unchanged so the user can retry, but
the finally block resets the loading flag and the image upload-progress
list, no notification is delivered, and a user-visible failure message
is shown. -/
theorem broadcast_outcome_state (s : ComposerState) (user permlink body : String) :
    afterBroadcast s user permlink body true =
      ({ text := "", images := [], selectedGif := none, selectedVideo := none,
         videoEmbedUrl := none, videoUploadProgress := 0, thumbnailProcessing := false,
         isLoading := false, uploadProgress := [] },
       some { author := user, permlink := permlink, body := body }, none)
    ∧ (afterBroadcast s user permlink body false).1.text = s.text
    ∧ (afterBroadcast s user permlink body false).1.images = s.images
    ∧ (afterBroadcast s user permlink body false).1.selectedGif = s.selectedGif
    ∧ (afterBroadcast s user permlink body false).1.selectedVideo = s.selectedVideo
    ∧ (afterBroadcast s user permlink body false).1.videoEmbedUrl = s.videoEmbedUrl
    ∧ (afterBroadcast s user permlink body false).1.videoUploadProgress =
        s.videoUploadProgress
    ∧ (afterBroadcast s user permlink body false).1.thumbnailProcessing =
        s.thumbnailProcessing
    ∧ (afterBroadcast s user permlink body false).1.isLoading = false
    ∧ (afterBroadcast s user permlink body false).1.uploadProgress = []
    ∧ (afterBroadcast s user permlink body false).2.1 = none
    ∧ (afterBroadcast s user permlink body false).2.2 =
        some "Failed to post. Please try again." := by
  exact ⟨rfl, rfl, rfl, rfl, rfl, rfl, rfl, rfl, rfl, rfl, rfl, rfl⟩

/-! ## Thumbnail extraction resource lifetime (extractThumbnail, lines
51-100) -/

/-- The platform events extractThumbnail reacts to: whether the video
element fires its error event, whether getContext 2d returns a
rendering context, and the blob the toBlob callback delivers (none when
encoding fails). -/
structure ThumbnailEnv where
  videoLoadFails : Bool
  canvasContextAvailable : Bool
  encodedBlob : Option String
deriving DecidableEq

/-- Terminating outcome of extractThumbnail, with whether the temporary
object URL created for the video source was released via
URL.revokeObjectURL on that path. -/
structure ThumbnailRun where
  result : Except String String
  objectUrlRevoked : Bool

/-- extractThumbnail path structure: the error listener revokes and
rejects; the seeked listener rejects without revoking when the 2d
context is missing (lines 71-74 return before any revoke call); the
toBlob callback revokes after resolving on a blob or rejecting on a
null blob. -/
def extractThumbnail (env : ThumbnailEnv) : ThumbnailRun :=
  if env.videoLoadFails then
    { result := .error "Failed to load video", objectUrlRevoked := true }
  else if env.canvasContextAvailable = false then
    { result := .error "Failed to get canvas context", objectUrlRevoked := false }
  else
    match env.encodedBlob with
    | some b => { result := .ok b, objectUrlRevoked := true }
    | none => { result := .error "Failed to create thumbnail blob", objectUrlRevoked := true }

/-- Claim C8 evaluation: the decode-error, encode-success and
encode-failure paths all release the object URL, but the
missing-rendering-context path terminates (rejecting) without releasing
it, contradicting the claimed every-terminating-path release. -/
theorem thumbnail_url_release_paths :
    extractThumbnail
        { videoLoadFails := false, canvasContextAvailable := false,
          encodedBlob := some "blob" } =
      { result := .error "Failed to get canvas context", objectUrlRevoked := false }
    ∧ (extractThumbnail
        { videoLoadFails := true, canvasContextAvailable := true,
          encodedBlob := none }).objectUrlRevoked = true
    ∧ (extractThumbnail
        { videoLoadFails := false, canvasContextAvailable := true,
          encodedBlob := some "blob" }).objectUrlRevoked = true
    ∧ (extractThumbnail
        { videoLoadFails := false, canvasContextAvailable := true,
          encodedBlob := none }).objectUrlRevoked = true := by
  exact ⟨rfl, rfl, rfl, rfl⟩

/-! ## Credential gates (uploadVideoToThreeSpeak, lines 200-207, and
setVideoThumbnail, lines 177-182) -/

/-- uploadVideoToThreeSpeak credential gate: the API key is read from
process configuration (none when unset; the source defaults it to the
empty string and rejects on empty) before any transfer is started.  net
is the outcome of the resumable upload, consulted only past the gate;
the Bool records whether any network request was attempted. -/
def uploadVideoToThreeSpeak (apiKeyEnv : Option String)
    (net : Except String String) : Except String String × Bool :=
  let apiKey := apiKeyEnv.getD ""
  if apiKey = "" then (.error "3Speak API key not configured", false)
  else (net, true)

/-- setVideoThumbnail credential gate: identical pre-flight check before
the thumbnail-assignment fetch. -/
def setVideoThumbnail (apiKeyEnv : Option String)
    (net : Except String Unit) : Except String Unit × Bool :=
  let apiKey := apiKeyEnv.getD ""
  if apiKey = "" then (.error "3Speak API key not configured", false)
  else (net, true)

/-- Claim C9: with the API credential absent from process configuration,
the video upload and the thumbnail assignment each fail immediately with
the credential-missing error and no network request is attempted,
whatever the network would have answered. -/
theorem credential_gate :
    (∀ net : Except String String,
        uploadVideoToThreeSpeak none net = (.error "3Speak API key not configured", false))
    ∧ (∀ net : Except String Unit,
        setVideoThumbnail none net = (.error "3Speak API key not configured", false)) := by
  exact ⟨fun net => rfl, fun net => rfl⟩

/-! ## Published tags come from the fully composed body (handleComment,
lines 313-370: body composition precedes extractHashtags) -/

/-- The tag list handleComment packs into json_metadata: extracted from
the body only after the video embed URL, the Markdown image lines and
the GIF Markdown have been appended. -/
def publishedTags (text : String) (videoEmbedUrl : Option String)
    (validUrls : List String) (gifUrl : Option String)
    (pp : String) (communityTag : Option String) : List String :=
  buildTags pp communityTag (composeBody text videoEmbedUrl validUrls gifUrl)

/-- Claim C10: the published tag set is computed from the fully composed
body, not the draft text alone: it equals the seeded, deduplicated
hashtag extraction over composeBody's output, every hashtag extracted
from the composed body lands in the published tags, and concretely a
hash-and-word-characters sequence inside an appended GIF URL becomes a
published tag even with an empty draft text. -/
theorem tags_from_composed_body :
    (∀ (text : String) (v : Option String) (urls : List String) (g : Option String)
        (pp : String) (ct : Option String),
        publishedTags text v urls g pp ct =
          setDedup ((if pp = "snaps" then [ct.getD "", "snaps"] else []) ++
            extractHashtags (composeBody text v urls g)))
    ∧ (∀ (text : String) (v : Option String) (urls : List String) (g : Option String)
        (pp : String) (ct : Option String) (t : String),
        t ∈ extractHashtags (composeBody text v urls g) →
          t ∈ publishedTags text v urls g pp ct)
    ∧ publishedTags "" none [] (some "https://media.test/a#funny_cat") "x" none =
        ["funny_cat"] := by
  refine ⟨fun text v urls g pp ct => rfl, ?_, by decide⟩
  intro text v urls g pp ct t ht
  have hm := (mem_foldl_insertUniq
    ((if pp = "snaps" then [ct.getD "", "snaps"] else []) ++
      extractHashtags (composeBody text v urls g)) [] t).2
  exact hm (Or.inr (List.mem_append_right _ ht))

theorem tags_from_composed_body_witness :
    "funny_cat" ∈ publishedTags "" none [] (some "https://media.test/a#funny_cat")
        "x" none :=
  tags_from_composed_body.2.1 "" none [] (some "https://media.test/a#funny_cat")
    "x" none "funny_cat" (by decide)
